import Mathlib

/-!
Shallow embedding of the CCS811 I2C gas-sensor driver
(src/CCS811_driver.h, src/CCS811_driver.cpp).

Modelling conventions:
* Byte buffers are `List Nat`; machine bytes are `Nat` values (reduced with
  explicit `% 256` / `% 65536` where the C code truncates).
* The Arduino hosts this driver targets (AVR, ESP, ARM Cortex-M) are
  little-endian, so reading a `uint16_t`/`int16_t` member of one of the
  driver's unions through its `raw` bytes yields `raw[0] + 256 * raw[1]`
  (`raw[0]` is the least significant byte).
* The Wire/I2C transport is an oracle (`Bus`).  A register write carries the
  device address, register address and payload and answers with the
  `Wire.endTransmission() == 0` success flag.  A register read first selects
  the register address (which can fail: `Wire.endTransmission() != 0`) and on
  success the device makes some list of bytes available to `Wire.read()`.
  The oracle takes a transaction index so that repeated attempts (the
  `comms_check` retry loop) can behave differently.
* `uint8_t _device_address` is the only field of the `CCS811` object; the
  member functions are translated as explicit state passing
  (`CCS811State → ... × CCS811State`).
* Uninitialised stack variables (`ccs811_hardware_id_t id;` in
  `comms_check`, the local unions in `get_eCO2` / `get_eTVOC` /
  `start_application_verify` / `start_application_mode`) become explicit
  parameters holding the indeterminate initial contents.
* `float` arithmetic in `write_environmental_data` is modelled over `ℚ`;
  this is exact whenever every intermediate value is representable (the
  inputs used in the theorems below are small dyadic rationals, for which
  single-precision arithmetic is exact).
-/

/-- Hardware id constant `CCS811_HARDWARE_ID` from the header. -/
def CCS811_HARDWARE_ID : Nat := 0x81

/-- Default I2C address constant from the header. -/
def CCS811_DEFAULT_I2C_ADDRESS : Nat := 0x5A

/-- Constant `CCS811_APPLICATION_ERASE_SEQUENCE` from the header. -/
def CCS811_APPLICATION_ERASE_SEQUENCE : List Nat := [0xE7, 0xA7, 0xE6, 0x09]

/-- Constant `CCS811_RESET_SEQUENCE` from the header. -/
def CCS811_RESET_SEQUENCE : List Nat := [0x11, 0xE5, 0x72, 0x8A]

/-- Outcome of the address-selection plus data phase of one I2C register
read: either `Wire.endTransmission()` returned non-zero (`addrFail`), or it
returned zero and the device made `avail` bytes available. -/
inductive ReadResp where
  | addrFail : ReadResp
  | ok (avail : List Nat) : ReadResp
deriving DecidableEq

/-- The I2C transport as seen by the driver.  `writeOk dev reg payload` is
the success flag of a register write; `readResp t dev reg len` is the
response of the `t`-th read transaction issued at device `dev`, register
`reg`, requesting `len` bytes. -/
structure Bus where
  writeOk : Nat → Nat → List Nat → Bool
  readResp : Nat → Nat → Nat → Nat → ReadResp

/-- Body of one iteration of `swap_endianess`: `temp = buffer[i];
buffer[i] = buffer[j]; buffer[j] = temp;` with `j = size - 1 - i`. -/
def swapStep (buffer : List Nat) (i j : Nat) : List Nat :=
  (buffer.set i (buffer.getD j 0)).set j (buffer.getD i 0)

/-- The `for (i = 0; i < size / 2; i++)` loop of `swap_endianess`; the loop
runs exactly `size / 2` times, so the remaining trip count is structural
recursion fuel (`rem = size / 2 - i`). -/
def swap_endianess_go (size : Nat) : Nat → Nat → List Nat → List Nat
  | _, 0, buffer => buffer
  | i, rem + 1, buffer => swap_endianess_go size (i + 1) rem (swapStep buffer i (size - 1 - i))

/-- `swap_endianess(uint8_t* buffer, size_t size)`: in-place reversal of the
first `size` bytes of `buffer`. -/
def swap_endianess (buffer : List Nat) (size : Nat) : List Nat :=
  swap_endianess_go size 0 (size / 2) buffer

/-- Value of a `uint16_t` (or the bit pattern of an `int16_t`) union member
whose `raw` bytes are `l`, on a little-endian host: `raw[0]` is the least
significant byte. -/
def le16 (l : List Nat) : Nat := l.getD 0 0 + 256 * l.getD 1 0

/-- The `raw` bytes of a 2-byte union whose `uint16_t` member was assigned
`v`, on a little-endian host (byte 0 is the least significant byte; the
`% 256` factors model the 16-bit truncation of the assignment). -/
def u16raw (v : Nat) : List Nat := [v % 256, v / 256 % 256]

/-- Big-endian bytes of an unsigned 16-bit value; this is the wire format the
spec prescribes for multi-byte register fields. -/
def beBytes16 (v : Nat) : List Nat := [v / 256 % 256, v % 256]

/-- Truncation toward zero of a rational, as C float-to-integer conversion
performs on in-range values. -/
def truncTowardZero (x : ℚ) : Int := if 0 ≤ x then ⌊x⌋ else -⌊-x⌋

/-- Model of the C cast `(uint16_t)x` applied to a float `x`.  For
`x ∈ [0, 65536)` this is exact truncation; outside that range the C cast is
undefined behaviour and the `% 65536` here is only a total-function choice
(the theorems below restrict to the defined range). -/
def castU16 (x : ℚ) : Nat := ((truncTowardZero x) % 65536).toNat

/-- The driver object: its only data member is `uint8_t _device_address`. -/
structure CCS811State where
  _device_address : Nat
deriving DecidableEq

namespace CCS811

/-- Register address `STATUS` from the private enum. -/
def STATUS : Nat := 0x00

/-- Register address `MEAS_MODE`. -/
def MEAS_MODE : Nat := 0x01

/-- Register address `ALG_RESULT_DATA`. -/
def ALG_RESULT_DATA : Nat := 0x02

/-- Register address `RAW_DATA`. -/
def RAW_DATA : Nat := 0x03

/-- Register address `ENV_DATA`. -/
def ENV_DATA : Nat := 0x05

/-- Register address `THRESHOLDS`. -/
def THRESHOLDS : Nat := 0x10

/-- Register address `BASELINE`. -/
def BASELINE : Nat := 0x11

/-- Register address `HW_ID`. -/
def HW_ID : Nat := 0x20

/-- Register address `HW_VERSION`. -/
def HW_VERSION : Nat := 0x21

/-- Register address `FW_BOOT_VERSION`. -/
def FW_BOOT_VERSION : Nat := 0x23

/-- Register address `FW_APP_VERSION`. -/
def FW_APP_VERSION : Nat := 0x24

/-- Register address `ERROR_ID`. -/
def ERROR_ID : Nat := 0xE0

/-- Register address `APP_ERASE`. -/
def APP_ERASE : Nat := 0xF1

/-- Register address `APP_DATA`. -/
def APP_DATA : Nat := 0xF2

/-- Register address `APP_VERIFY`. -/
def APP_VERIFY : Nat := 0xF3

/-- Register address `APP_START`. -/
def APP_START : Nat := 0xF4

/-- Register address `SW_RESET`. -/
def SW_RESET : Nat := 0xFF

/-- Private `CCS811::read(uint8_t* output, ccs811_reg_t address, uint8_t
length)`.  If the address-selection phase fails the function returns `false`
with `output` untouched.  Otherwise it returns `true` and the loop
`for (i = 0; i < length && Wire.available(); i++) output[i] = Wire.read();`
overwrites a prefix of `output` with the bytes the device delivered (at most
`length` of them); the rest of `output` keeps its prior contents.  `t` is the
transaction index handed to the bus oracle. -/
def readReg (bus : Bus) (t dev address length : Nat) (output : List Nat) :
    Bool × List Nat :=
  match bus.readResp t dev address length with
  | ReadResp.addrFail => (false, output)
  | ReadResp.ok avail =>
    let delivered := avail.take length
    (true, delivered ++ output.drop delivered.length)

/-- Private `CCS811::write(uint8_t* input, ccs811_reg_t address, uint8_t
length)`: one addressed write transaction; the result is
`Wire.endTransmission() == 0`. -/
def writeReg (bus : Bus) (dev address : Nat) (input : List Nat) : Bool :=
  bus.writeOk dev address input

/-- The `while (not success and retries < 10)` loop of `comms_check`.
The loop can run at most `10 - retries` more times, which is the structural
fuel; each iteration performs one retry read (at transaction index
`retries + 1`), increments `retries` and calls `delay(10)` (so the number of
10 ms delays equals the final `retries` count).  Returns the final
`(success, id buffer, retries)`. -/
def comms_loop (bus : Bus) (dev : Nat) :
    Nat → Bool → List Nat → Nat → Bool × List Nat × Nat
  | 0, success, buf, retries => (success, buf, retries)
  | fuel + 1, success, buf, retries =>
    if success then (success, buf, retries)
    else
      let r := readReg bus (retries + 1) dev HW_ID 1 buf
      comms_loop bus dev fuel r.1 r.2 (retries + 1)

/-- `CCS811::comms_check()`: read the hardware-id register (retrying up to
10 times on transport failure), then return `id.raw == CCS811_HARDWARE_ID`.
`idInit` is the indeterminate initial content of the uninitialised local
`ccs811_hardware_id_t id`; note the comparison uses whatever the buffer
holds after the attempts, whether or not any read succeeded. -/
def comms_check (bus : Bus) (s : CCS811State) (idInit : Nat) :
    Bool × CCS811State :=
  let first := readReg bus 0 s._device_address HW_ID 1 [idInit]
  let final := comms_loop bus s._device_address 10 first.1 first.2 0
  ((final.2.1.getD 0 0 == CCS811_HARDWARE_ID), s)

/-- `CCS811::begin(uint8_t device_address)`: store the device address, then
run `comms_check`. -/
def begin (bus : Bus) (_s : CCS811State) (device_address idInit : Nat) :
    Bool × CCS811State :=
  comms_check bus { _device_address := device_address } idInit

/-- `CCS811::read(ccs811_status_t&)`: one byte from `STATUS` into the
caller's container (initial content `init`). -/
def read_status (bus : Bus) (s : CCS811State) (init : Nat) :
    (Bool × List Nat) × CCS811State :=
  (readReg bus 0 s._device_address STATUS 1 [init], s)

/-- `CCS811::read(ccs811_measure_config_t&)`: one byte from `MEAS_MODE`. -/
def read_measure_config (bus : Bus) (s : CCS811State) (init : Nat) :
    (Bool × List Nat) × CCS811State :=
  (readReg bus 0 s._device_address MEAS_MODE 1 [init], s)

/-- `CCS811::read(ccs811_co2_thresholds_t&)`: four bytes from `THRESHOLDS`
into `thresholds.raw`, then `swap_endianess` applied in place to the two
2-byte fields `low_limit` (bytes 0-1) and `high_limit` (bytes 2-3); the
typed result is the pair of host `uint16_t` field values.  The decode runs
whether or not the read succeeded, exactly as in the source. -/
def read_co2_thresholds (bus : Bus) (s : CCS811State) (bufInit : List Nat) :
    (Bool × Nat × Nat) × CCS811State :=
  let r := readReg bus 0 s._device_address THRESHOLDS 4 bufInit
  let lowRaw := swap_endianess (r.2.take 2) 2
  let highRaw := swap_endianess (r.2.drop 2) 2
  ((r.1, le16 lowRaw, le16 highRaw), s)

/-- `CCS811::read(ccs811_eCO2_data_t&)`: two bytes from `ALG_RESULT_DATA`
straight into the union's `raw` bytes — no byte-order conversion. -/
def read_eCO2 (bus : Bus) (s : CCS811State) (bufInit : List Nat) :
    (Bool × List Nat) × CCS811State :=
  (readReg bus 0 s._device_address ALG_RESULT_DATA 2 bufInit, s)

/-- `CCS811::read(ccs811_eTVOC_data_t&)`: four bytes from `ALG_RESULT_DATA`
into a local `ccs811_air_quality_data_t` (initial content `bufInit`), then
`data = output.eTVOC_reading` — the union places `eTVOC_reading` at bytes
0-1.  No byte-order conversion. -/
def read_eTVOC (bus : Bus) (s : CCS811State) (bufInit : List Nat) :
    (Bool × List Nat) × CCS811State :=
  let r := readReg bus 0 s._device_address ALG_RESULT_DATA 4 bufInit
  ((r.1, r.2.take 2), s)

/-- `CCS811::read(ccs811_raw_data_t&)`: two bytes from `RAW_DATA`. -/
def read_raw_data (bus : Bus) (s : CCS811State) (bufInit : List Nat) :
    (Bool × List Nat) × CCS811State :=
  (readReg bus 0 s._device_address RAW_DATA 2 bufInit, s)

/-- `CCS811::read(ccs811_air_quality_data_t&)`: four bytes from
`ALG_RESULT_DATA`. -/
def read_air_quality (bus : Bus) (s : CCS811State) (bufInit : List Nat) :
    (Bool × List Nat) × CCS811State :=
  (readReg bus 0 s._device_address ALG_RESULT_DATA 4 bufInit, s)

/-- `CCS811::read(ccs811_all_data_t&)`: eight bytes from
`ALG_RESULT_DATA`. -/
def read_all_data (bus : Bus) (s : CCS811State) (bufInit : List Nat) :
    (Bool × List Nat) × CCS811State :=
  (readReg bus 0 s._device_address ALG_RESULT_DATA 8 bufInit, s)

/-- `CCS811::read(ccs811_baseline_t&)`: two bytes from `BASELINE`. -/
def read_baseline (bus : Bus) (s : CCS811State) (bufInit : List Nat) :
    (Bool × List Nat) × CCS811State :=
  (readReg bus 0 s._device_address BASELINE 2 bufInit, s)

/-- `CCS811::read(ccs811_hardware_id_t&)`: one byte from `HW_ID`. -/
def read_hardware_id (bus : Bus) (s : CCS811State) (init : Nat) :
    (Bool × List Nat) × CCS811State :=
  (readReg bus 0 s._device_address HW_ID 1 [init], s)

/-- `CCS811::read(ccs811_hardware_version_t&)`: one byte from
`HW_VERSION`. -/
def read_hardware_version (bus : Bus) (s : CCS811State) (init : Nat) :
    (Bool × List Nat) × CCS811State :=
  (readReg bus 0 s._device_address HW_VERSION 1 [init], s)

/-- `CCS811::read(ccs811_firmware_boot_version_t&)`: two bytes from
`FW_BOOT_VERSION`. -/
def read_firmware_boot_version (bus : Bus) (s : CCS811State)
    (bufInit : List Nat) : (Bool × List Nat) × CCS811State :=
  (readReg bus 0 s._device_address FW_BOOT_VERSION 2 bufInit, s)

/-- `CCS811::read(ccs811_firmware_application_version_t&)`: two bytes from
`FW_APP_VERSION`. -/
def read_firmware_app_version (bus : Bus) (s : CCS811State)
    (bufInit : List Nat) : (Bool × List Nat) × CCS811State :=
  (readReg bus 0 s._device_address FW_APP_VERSION 2 bufInit, s)

/-- `CCS811::read(ccs811_error_t&)`: one byte from `ERROR_ID`. -/
def read_error (bus : Bus) (s : CCS811State) (init : Nat) :
    (Bool × List Nat) × CCS811State :=
  (readReg bus 0 s._device_address ERROR_ID 1 [init], s)

/-- `CCS811::write(ccs811_measure_config_t)`: one byte to `MEAS_MODE`. -/
def write_measure_config (bus : Bus) (s : CCS811State) (cfg : Nat) :
    Bool × CCS811State :=
  (writeReg bus s._device_address MEAS_MODE [cfg], s)

/-- `CCS811::write(ccs811_environmental_data_t)`: the union's four raw bytes
to `ENV_DATA`. -/
def write_environmental (bus : Bus) (s : CCS811State) (raw : List Nat) :
    Bool × CCS811State :=
  (writeReg bus s._device_address ENV_DATA raw, s)

/-- Wire bytes produced by `CCS811::write(ccs811_co2_thresholds_t)` for host
field values `low`, `high`: each field's little-endian raw bytes are
`swap_endianess`-ed in place, giving big-endian on the wire. -/
def thresholds_raw (low high : Nat) : List Nat :=
  swap_endianess (u16raw low) 2 ++ swap_endianess (u16raw high) 2

/-- `CCS811::write(ccs811_co2_thresholds_t)`: swap the byte order of
`low_limit` and `high_limit` in place, then write the four raw bytes to
`THRESHOLDS`. -/
def write_thresholds (bus : Bus) (s : CCS811State) (low high : Nat) :
    Bool × CCS811State :=
  (writeReg bus s._device_address THRESHOLDS (thresholds_raw low high), s)

/-- `CCS811::write(ccs811_baseline_t)`: two raw bytes to `BASELINE`. -/
def write_baseline (bus : Bus) (s : CCS811State) (raw : List Nat) :
    Bool × CCS811State :=
  (writeReg bus s._device_address BASELINE raw, s)

/-- `CCS811::write(ccs811_application_data_t)`: nine raw bytes to
`APP_DATA`. -/
def write_app_data (bus : Bus) (s : CCS811State) (raw : List Nat) :
    Bool × CCS811State :=
  (writeReg bus s._device_address APP_DATA raw, s)

/-- `CCS811::write(ccs811_application_verify_t)`: one byte to
`APP_VERIFY`. -/
def write_app_verify (bus : Bus) (s : CCS811State) (code : Nat) :
    Bool × CCS811State :=
  (writeReg bus s._device_address APP_VERIFY [code], s)

/-- `CCS811::write(ccs811_application_start_t)`: one byte to `APP_START`. -/
def write_app_start (bus : Bus) (s : CCS811State) (code : Nat) :
    Bool × CCS811State :=
  (writeReg bus s._device_address APP_START [code], s)

/-- `CCS811::write(ccs811_application_erase_t)`: four bytes to
`APP_ERASE`. -/
def write_app_erase (bus : Bus) (s : CCS811State) (sequence : List Nat) :
    Bool × CCS811State :=
  (writeReg bus s._device_address APP_ERASE sequence, s)

/-- `CCS811::write(ccs811_reset_t)`: four bytes to `SW_RESET`. -/
def write_reset (bus : Bus) (s : CCS811State) (sequence : List Nat) :
    Bool × CCS811State :=
  (writeReg bus s._device_address SW_RESET sequence, s)

/-- `CCS811::write_environmental_data(float temperature, float humidity)`:
`data.temperature.total = (uint16_t)((temperature - 25) * 512)`,
`data.humidity.total = (uint16_t)(humidity * 512)`, both fields byte-swapped
in place, then the union (humidity at bytes 0-1, temperature at bytes 2-3)
written to `ENV_DATA`.  The C cast truncates; see `castU16`. -/
def write_environmental_data (bus : Bus) (s : CCS811State)
    (temperature humidity : ℚ) : Bool × CCS811State :=
  let tempTotal := castU16 ((temperature - 25) * 512)
  let humTotal := castU16 (humidity * 512)
  let raw := swap_endianess (u16raw humTotal) 2 ++ swap_endianess (u16raw tempTotal) 2
  write_environmental bus s raw

/-- `CCS811::write_co2_thresholds(uint16_t, uint16_t)`: build the thresholds
struct and delegate to the typed write. -/
def write_co2_thresholds (bus : Bus) (s : CCS811State) (low high : Nat) :
    Bool × CCS811State :=
  write_thresholds bus s low high

/-- `CCS811::get_eCO2()`: `read(data); return data.total;` — the success
flag of the read is discarded, and `data.total` is the little-endian host
interpretation of the two received bytes (converted to `uint16_t` by the
return type).  `bufInit` is the indeterminate initial content of the
uninitialised local `data`. -/
def get_eCO2 (bus : Bus) (s : CCS811State) (bufInit : List Nat) :
    Nat × CCS811State :=
  let r := read_eCO2 bus s bufInit
  (le16 r.1.2, s)

/-- `CCS811::get_eTVOC()`: `read(data); return data.total;` — same shape as
`get_eCO2`, via the 4-byte air-quality read. -/
def get_eTVOC (bus : Bus) (s : CCS811State) (bufInit : List Nat) :
    Nat × CCS811State :=
  let r := read_eTVOC bus s bufInit
  (le16 r.1.2, s)

/-- `CCS811::reset()`: copy `CCS811_RESET_SEQUENCE` and write it via
`write(ccs811_reset_t)`. -/
def reset (bus : Bus) (s : CCS811State) : Bool × CCS811State :=
  write_reset bus s CCS811_RESET_SEQUENCE

/-- `CCS811::start_application_erase()`: copy
`CCS811_APPLICATION_ERASE_SEQUENCE` and write it via
`write(ccs811_application_erase_t)`. -/
def start_application_erase (bus : Bus) (s : CCS811State) :
    Bool × CCS811State :=
  write_app_erase bus s CCS811_APPLICATION_ERASE_SEQUENCE

/-- `CCS811::start_application_verify()`: write the uninitialised local
`code` byte (`codeInit`) to `APP_VERIFY`. -/
def start_application_verify (bus : Bus) (s : CCS811State) (codeInit : Nat) :
    Bool × CCS811State :=
  write_app_verify bus s codeInit

/-- `CCS811::start_application_mode()`: write the uninitialised local `code`
byte (`codeInit`) to `APP_START`. -/
def start_application_mode (bus : Bus) (s : CCS811State) (codeInit : Nat) :
    Bool × CCS811State :=
  write_app_start bus s codeInit

end CCS811

/-! Helper lemmas about the byte-order loop and the numeric conversions. -/

theorem getD_set (l : List Nat) (i j a : Nat) :
    (l.set i a).getD j 0 = if i = j ∧ i < l.length then a else l.getD j 0 := by
  simp only [List.getD_eq_getElem?_getD, List.getElem?_set]
  by_cases h1 : i = j
  · subst h1
    by_cases h2 : i < l.length
    · simp [h2]
    · simp [h2, List.getElem?_eq_none (le_of_not_lt h2)]
  · simp [h1]

theorem getD_index_congr (buf : List Nat) (x y : Nat) (h : x = y) :
    buf.getD x 0 = buf.getD y 0 := by rw [h]

theorem swapStep_getD (buf : List Nat) (i j k : Nat) :
    (swapStep buf i j).getD k 0 =
      if j = k ∧ j < buf.length then buf.getD i 0
      else if i = k ∧ i < buf.length then buf.getD j 0
      else buf.getD k 0 := by
  unfold swapStep
  rw [getD_set, getD_set]
  simp only [List.length_set]

theorem swapStep_length (buf : List Nat) (i j : Nat) :
    (swapStep buf i j).length = buf.length := by
  simp [swapStep]

theorem swap_endianess_go_length (size : Nat) :
    ∀ (rem i : Nat) (buf : List Nat),
      (swap_endianess_go size i rem buf).length = buf.length := by
  intro rem
  induction rem with
  | zero => intro i buf; rfl
  | succ rem ih =>
    intro i buf
    simp only [swap_endianess_go]
    rw [ih, swapStep_length]

theorem swap_endianess_go_getD (size : Nat) :
    ∀ (rem i : Nat) (buf : List Nat), size ≤ buf.length → i + rem = size / 2 →
    ∀ k, (swap_endianess_go size i rem buf).getD k 0 =
      if i ≤ k ∧ k < size - i then buf.getD (size - 1 - k) 0 else buf.getD k 0 := by
  intro rem
  induction rem with
  | zero =>
    intro i buf hlen hinv k
    simp only [swap_endianess_go]
    split
    · exact getD_index_congr buf _ _ (by omega)
    · rfl
  | succ rem ih =>
    intro i buf hlen hinv k
    simp only [swap_endianess_go]
    rw [ih (i + 1) (swapStep buf i (size - 1 - i)) (by rw [swapStep_length]; exact hlen)
        (by omega) k]
    rw [swapStep_getD, swapStep_getD]
    split_ifs <;> first | rfl | omega | exact getD_index_congr buf _ _ (by omega)

theorem swap_endianess_length (buf : List Nat) (n : Nat) :
    (swap_endianess buf n).length = buf.length :=
  swap_endianess_go_length n (n / 2) 0 buf

/-- Pointwise description of `swap_endianess`: within the first `n` bytes the
buffer is reversed, beyond them it is untouched. -/
theorem swap_endianess_getD (buf : List Nat) (n : Nat) (h : n ≤ buf.length) (k : Nat) :
    (swap_endianess buf n).getD k 0 =
      if k < n then buf.getD (n - 1 - k) 0 else buf.getD k 0 := by
  unfold swap_endianess
  rw [swap_endianess_go_getD n (n / 2) 0 buf h (by omega) k]
  split_ifs <;> first | rfl | omega

/-- Swapping a 2-byte little-endian field in place yields the big-endian
bytes of the same 16-bit value. -/
theorem swap_u16raw (v : Nat) : swap_endianess (u16raw v) 2 = beBytes16 v := rfl

theorem castU16_eq_floor (x : ℚ) (h0 : 0 ≤ x) (h1 : x < 65536) :
    castU16 x = (⌊x⌋).toNat := by
  unfold castU16 truncTowardZero
  rw [if_pos h0, Int.emod_eq_of_lt (Int.floor_nonneg.mpr h0)
    (Int.floor_lt.mpr (by exact_mod_cast h1))]

/-- The retry loop run against a transport whose reads all fail at the
address phase: it spins through all its fuel, never touches the buffer, and
counts one retry (and one 10 ms delay) per iteration. -/
theorem comms_loop_all_fail (bus : Bus) (dev : Nat)
    (h : ∀ t, bus.readResp t dev CCS811.HW_ID 1 = ReadResp.addrFail) :
    ∀ (fuel : Nat) (buf : List Nat) (retries : Nat),
      CCS811.comms_loop bus dev fuel false buf retries = (false, buf, retries + fuel) := by
  intro fuel
  induction fuel with
  | zero => intro buf retries; rfl
  | succ fuel ih =>
    intro buf retries
    simp only [CCS811.comms_loop, CCS811.readReg, h (retries + 1),
      Bool.false_eq_true, if_false]
    rw [ih]
    have he : retries + 1 + fuel = retries + (fuel + 1) := by omega
    rw [he]

/-- The retry loop only consults the bus through reads of `HW_ID`, so two
buses that agree on those reads drive it identically. -/
theorem comms_loop_congr (bus busB : Bus) (dev : Nat)
    (hr : ∀ t len, bus.readResp t dev CCS811.HW_ID len =
      busB.readResp t dev CCS811.HW_ID len) :
    ∀ (fuel : Nat) (suc : Bool) (buf : List Nat) (retries : Nat),
      CCS811.comms_loop bus dev fuel suc buf retries =
        CCS811.comms_loop busB dev fuel suc buf retries := by
  intro fuel
  induction fuel with
  | zero => intro suc buf retries; rfl
  | succ fuel ih =>
    intro suc buf retries
    cases suc with
    | true => rfl
    | false =>
      have hrr : CCS811.readReg bus (retries + 1) dev CCS811.HW_ID 1 buf =
          CCS811.readReg busB (retries + 1) dev CCS811.HW_ID 1 buf := by
        unfold CCS811.readReg
        rw [hr]
      simp only [CCS811.comms_loop, Bool.false_eq_true, if_false]
      rw [hrr, ih]

/-! Concrete transports used by the claim theorems. -/

/-- Transport that accepts every write and answers every read with the two
bytes `[0x01, 0x2C]`. -/
def busC1 : Bus := ⟨fun _ _ _ => true, fun _ _ _ _ => ReadResp.ok [0x01, 0x2C]⟩

/-- Transport on which every transaction fails (`endTransmission != 0`). -/
def busNone : Bus := ⟨fun _ _ _ => false, fun _ _ _ _ => ReadResp.addrFail⟩

/-- Transport that always delivers the single byte `0x81`. -/
def busID : Bus := ⟨fun _ _ _ => true, fun _ _ _ _ => ReadResp.ok [0x81]⟩

/-- Transport that always delivers the single byte `0x12` (a non-matching
hardware id). -/
def busB : Bus := ⟨fun _ _ _ => true, fun _ _ _ _ => ReadResp.ok [0x12]⟩

/-- Transport that delivers one byte `0xAB` regardless of how many bytes were
requested. -/
def busShort : Bus := ⟨fun _ _ _ => true, fun _ _ _ _ => ReadResp.ok [0xAB]⟩

/-! Claim C1. -/

/-- C1: the claim says `get_eCO2()` decodes `[0x01, 0x2C]` big-endian to 300.
The source reads the two bytes straight into the union with no
`swap_endianess` call (unlike the thresholds and environmental registers),
so on the little-endian host `data.total` takes the FIRST received byte as
the LEAST significant one: the result is 0x2C01 = 11265, not 300.  This
evaluates the embedded code at the claim's own input. -/
theorem C1_get_eCO2_no_byte_swap :
    (CCS811.get_eCO2 busC1 ⟨0x5A⟩ [0, 0]).1 = 11265 ∧
    (CCS811.get_eCO2 busC1 ⟨0x5A⟩ [0, 0]).1 ≠ 300 := by decide

/-! Claim C5. -/

/-- C5: `reset()` writes exactly `[0x11, 0xE5, 0x72, 0x8A]` to register
`0xFF` and `start_application_erase()` writes exactly
`[0xE7, 0xA7, 0xE6, 0x09]` to register `0xF1`; each returns precisely the
transport's acceptance flag for that write. -/
theorem C5_fixed_command_sequences :
    ∀ (bus : Bus) (s : CCS811State),
      CCS811.reset bus s =
        (bus.writeOk s._device_address 0xFF [0x11, 0xE5, 0x72, 0x8A], s) ∧
      CCS811.start_application_erase bus s =
        (bus.writeOk s._device_address 0xF1 [0xE7, 0xA7, 0xE6, 0x09], s) :=
  fun _ _ => ⟨rfl, rfl⟩

/-! Claim C6. -/

/-- C6: applying `swap_endianess` twice to the first `n` bytes of a buffer
(of at least `n` bytes) restores the original contents, and for odd `n` a
single application leaves the middle byte (index `n / 2`) unchanged. -/
theorem C6_swap_involution (buf : List Nat) (n : Nat) (h : n ≤ buf.length) :
    swap_endianess (swap_endianess buf n) n = buf ∧
    (n % 2 = 1 →
      (swap_endianess buf n).getD (n / 2) 0 = buf.getD (n / 2) 0) := by
  constructor
  · apply List.ext_getElem (by rw [swap_endianess_length, swap_endianess_length])
    intro k h1 h2
    rw [← List.getD_eq_getElem _ 0 h1, ← List.getD_eq_getElem _ 0 h2]
    rw [swap_endianess_getD _ _ (by rw [swap_endianess_length]; exact h)]
    by_cases hk : k < n
    · rw [if_pos hk, swap_endianess_getD _ _ h, if_pos (by omega : n - 1 - k < n)]
      exact getD_index_congr buf _ _ (by omega)
    · rw [if_neg hk, swap_endianess_getD _ _ h, if_neg hk]
  · intro hodd
    rw [swap_endianess_getD _ _ h, if_pos (by omega)]
    exact getD_index_congr buf _ _ (by omega)

/-- Witness for C6 at the concrete odd-length buffer `[10, 20, 30]`. -/
theorem C6_witness :
    3 ≤ ([10, 20, 30] : List Nat).length ∧
    (swap_endianess (swap_endianess [10, 20, 30] 3) 3 = [10, 20, 30] ∧
      (3 % 2 = 1 →
        (swap_endianess [10, 20, 30] 3).getD (3 / 2) 0 =
          ([10, 20, 30] : List Nat).getD (3 / 2) 0)) :=
  ⟨by decide, C6_swap_involution [10, 20, 30] 3 (by decide)⟩

/-! Claim C8. -/

/-- C8: when the address-selection phase of a register read fails, the
private read returns `false` and the caller's output buffer is returned
byte-for-byte unchanged. -/
theorem C8_addr_fail_untouched (bus : Bus) (t dev reg len : Nat)
    (output : List Nat) (h : bus.readResp t dev reg len = ReadResp.addrFail) :
    CCS811.readReg bus t dev reg len output = (false, output) := by
  simp [CCS811.readReg, h]

/-- Witness for C8 on the always-failing transport. -/
theorem C8_witness :
    CCS811.readReg busNone 0 0x5A 0x00 1 [0xAA] = (false, [0xAA]) :=
  C8_addr_fail_untouched busNone 0 0x5A 0x00 1 [0xAA] rfl

/-! Claim C9. -/

/-- C9: when the address phase succeeds but the device delivers fewer bytes
than requested, the private read still returns `true`; only the delivered
prefix of the output buffer is overwritten and the remaining bytes keep
their prior values. -/
theorem C9_short_read (bus : Bus) (t dev reg len : Nat)
    (output avail : List Nat) (h : bus.readResp t dev reg len = ReadResp.ok avail)
    (hlen : avail.length ≤ len) :
    CCS811.readReg bus t dev reg len output =
      (true, avail ++ output.drop avail.length) := by
  simp [CCS811.readReg, h, List.take_of_length_le hlen]

/-- Witness for C9: a 2-byte request answered with one byte `0xAB` reports
success and leaves the second buffer byte (`8`) stale. -/
theorem C9_witness :
    CCS811.readReg busShort 0 0x5A 0x02 2 [7, 8] = (true, [0xAB, 8]) :=
  C9_short_read busShort 0 0x5A 0x02 2 [7, 8] [0xAB] rfl (by decide)

/-! Claim C2. -/

/-- Amended failure-propagation property: on a transport where every
transaction fails, every `bool`-returning typed read, typed write,
convenience wrapper and mode-control command reports `false`; the scalar
getters `get_eCO2` / `get_eTVOC`, whose results carry no success flag,
instead return the little-endian decode of whatever the uninitialised output
buffer already held. -/
def failReported (bus : Bus) (s : CCS811State) : Prop :=
  (CCS811.read_status bus s 0).1.1 = false ∧
  (CCS811.read_measure_config bus s 0).1.1 = false ∧
  (CCS811.read_co2_thresholds bus s [0, 0, 0, 0]).1.1 = false ∧
  (CCS811.read_eCO2 bus s [0, 0]).1.1 = false ∧
  (CCS811.read_eTVOC bus s [0, 0, 0, 0]).1.1 = false ∧
  (CCS811.read_raw_data bus s [0, 0]).1.1 = false ∧
  (CCS811.read_air_quality bus s [0, 0, 0, 0]).1.1 = false ∧
  (CCS811.read_all_data bus s [0, 0, 0, 0, 0, 0, 0, 0]).1.1 = false ∧
  (CCS811.read_baseline bus s [0, 0]).1.1 = false ∧
  (CCS811.read_hardware_id bus s 0).1.1 = false ∧
  (CCS811.read_hardware_version bus s 0).1.1 = false ∧
  (CCS811.read_firmware_boot_version bus s [0, 0]).1.1 = false ∧
  (CCS811.read_firmware_app_version bus s [0, 0]).1.1 = false ∧
  (CCS811.read_error bus s 0).1.1 = false ∧
  (CCS811.write_measure_config bus s 0x10).1 = false ∧
  (CCS811.write_environmental bus s [0, 0, 0, 0]).1 = false ∧
  (CCS811.write_thresholds bus s 0 100).1 = false ∧
  (CCS811.write_baseline bus s [0, 0]).1 = false ∧
  (CCS811.write_app_data bus s [0, 0, 0, 0, 0, 0, 0, 0, 0]).1 = false ∧
  (CCS811.write_app_verify bus s 0).1 = false ∧
  (CCS811.write_app_start bus s 0).1 = false ∧
  (CCS811.write_app_erase bus s CCS811_APPLICATION_ERASE_SEQUENCE).1 = false ∧
  (CCS811.write_reset bus s CCS811_RESET_SEQUENCE).1 = false ∧
  (CCS811.write_environmental_data bus s 25 50).1 = false ∧
  (CCS811.write_co2_thresholds bus s 1000 2000).1 = false ∧
  (CCS811.reset bus s).1 = false ∧
  (CCS811.start_application_erase bus s).1 = false ∧
  (CCS811.start_application_verify bus s 0).1 = false ∧
  (CCS811.start_application_mode bus s 0).1 = false ∧
  (CCS811.get_eCO2 bus s [0x01, 0x2C]).1 = 0x2C01 ∧
  (CCS811.get_eTVOC bus s [0x09, 0x02, 0, 0]).1 = 0x0209

/-- C2 (amended): transport failure is propagated as `false` by every
`bool`-returning public operation, but NOT by the scalar getters, which
discard the success flag of their underlying read and return the decoded
buffer contents regardless. -/
theorem C2_amended (bus : Bus) (s : CCS811State)
    (hw : ∀ dev reg input, bus.writeOk dev reg input = false)
    (hr : ∀ t dev reg len, bus.readResp t dev reg len = ReadResp.addrFail) :
    failReported bus s := by
  unfold failReported
  simp [CCS811.read_status, CCS811.read_measure_config, CCS811.read_co2_thresholds,
    CCS811.read_eCO2, CCS811.read_eTVOC, CCS811.read_raw_data, CCS811.read_air_quality,
    CCS811.read_all_data, CCS811.read_baseline, CCS811.read_hardware_id,
    CCS811.read_hardware_version, CCS811.read_firmware_boot_version,
    CCS811.read_firmware_app_version, CCS811.read_error, CCS811.write_measure_config,
    CCS811.write_environmental, CCS811.write_thresholds, CCS811.write_baseline,
    CCS811.write_app_data, CCS811.write_app_verify, CCS811.write_app_start,
    CCS811.write_app_erase, CCS811.write_reset, CCS811.write_environmental_data,
    CCS811.write_co2_thresholds, CCS811.reset, CCS811.start_application_erase,
    CCS811.start_application_verify, CCS811.start_application_mode,
    CCS811.get_eCO2, CCS811.get_eTVOC, CCS811.readReg, CCS811.writeReg, hw, hr, le16]

/-- Witness for C2 on the concrete always-failing transport. -/
theorem C2_witness : failReported busNone ⟨0x5A⟩ :=
  C2_amended busNone ⟨0x5A⟩ (fun _ _ _ => rfl) (fun _ _ _ _ => rfl)

/-- Counterexample to C2 as stated: the underlying eCO2 reads differ in
success (`false` on the failing transport, `true` on the delivering one),
yet `get_eCO2` returns the very same number in both cases — its result
indicates nothing about transport failure, so the failure is swallowed. -/
theorem C2_counterexample :
    (CCS811.read_eCO2 busNone ⟨0x5A⟩ [0x01, 0x2C]).1.1 = false ∧
    (CCS811.read_eCO2 busC1 ⟨0x5A⟩ [0, 0]).1.1 = true ∧
    (CCS811.get_eCO2 busNone ⟨0x5A⟩ [0x01, 0x2C]).1 =
      (CCS811.get_eCO2 busC1 ⟨0x5A⟩ [0, 0]).1 := by decide

/-! Claim C3. -/

/-- C3 (amended): `comms_check` returns `true` when the transport delivers
the hardware id `0x81` on the first attempt, and `false` when it delivers a
non-matching byte; but when every attempt fails at the address phase the id
buffer is never written, the loop performs its 10 retries (each with a 10 ms
delay), and the result is the comparison of the UNINITIALISED id byte with
`0x81` — `false` only when that indeterminate byte differs from `0x81`. -/
theorem C3_amended (bus1 bus2 bus3 : Bus) (s : CCS811State) (g1 g2 g3 b : Nat)
    (h1 : bus1.readResp 0 s._device_address CCS811.HW_ID 1 = ReadResp.ok [0x81])
    (h2 : ∀ t, bus2.readResp t s._device_address CCS811.HW_ID 1 = ReadResp.ok [b])
    (hb : b ≠ 0x81)
    (h3 : ∀ t, bus3.readResp t s._device_address CCS811.HW_ID 1 = ReadResp.addrFail) :
    (CCS811.comms_check bus1 s g1).1 = true ∧
    (CCS811.comms_check bus2 s g2).1 = false ∧
    (CCS811.comms_check bus3 s g3).1 = (g3 == 0x81) ∧
    (CCS811.comms_loop bus3 s._device_address 10 false [g3] 0).2.2 = 10 := by
  refine ⟨?_, ?_, ?_, ?_⟩
  · simp [CCS811.comms_check, CCS811.readReg, h1, CCS811.comms_loop, CCS811_HARDWARE_ID]
  · simp [CCS811.comms_check, CCS811.readReg, h2 0, CCS811.comms_loop,
      CCS811_HARDWARE_ID, hb]
  · simp only [CCS811.comms_check, CCS811.readReg, h3 0]
    rw [comms_loop_all_fail bus3 s._device_address h3 10 [g3] 0]
    rfl
  · rw [comms_loop_all_fail bus3 s._device_address h3 10 [g3] 0]

/-- Witness for C3 on three concrete transports: first-attempt `0x81`,
always `0x12`, and always failing (with garbage id byte `7`). -/
theorem C3_witness :
    (CCS811.comms_check busID ⟨0x5A⟩ 0).1 = true ∧
    (CCS811.comms_check busB ⟨0x5A⟩ 0).1 = false ∧
    (CCS811.comms_check busNone ⟨0x5A⟩ 7).1 = (7 == 0x81) ∧
    (CCS811.comms_loop busNone 0x5A 10 false [7] 0).2.2 = 10 :=
  C3_amended busID busB busNone ⟨0x5A⟩ 0 0 7 0x12 rfl (fun _ => rfl) (by decide)
    (fun _ => rfl)

/-- Counterexample to C3 as stated: on a transport that fails on every
attempt the claim demands `false`, but when the uninitialised id byte
happens to hold `0x81` the final comparison succeeds and `comms_check`
returns `true` — the loop's success flag is never consulted after the
retries. -/
theorem C3_counterexample : (CCS811.comms_check busNone ⟨0x5A⟩ 0x81).1 = true := by
  decide

/-! Claim C4. -/

/-- Transport whose write acknowledgement checks for the payload the claim
predicts at `t = 25 °C`, `h = 511/1024 %RH`: big-endian `round(h*512) = 256`
in bytes 0-1 and zeros in bytes 2-3. -/
def busEnvClaim : Bus :=
  ⟨fun _ reg input => reg == 0x05 && input == [1, 0, 0, 0],
   fun _ _ _ _ => ReadResp.addrFail⟩

/-- Transport whose write acknowledgement checks for the payload the code
actually sends at that input: big-endian truncation 255 = `[0, 0xFF]`. -/
def busEnvActual : Bus :=
  ⟨fun _ reg input => reg == 0x05 && input == [0, 0xFF, 0, 0],
   fun _ _ _ _ => ReadResp.addrFail⟩

/-- Counterexample to C4 as stated: at `t = 25`, `h = 511/1024` the claimed
encoding is `round(255.5) = 256`, i.e. bytes `[1, 0]`, but the C cast
truncates 255.5 to 255, so the device receives `[0, 0xFF, 0, 0]` and not
`[1, 0, 0, 0]` (all values here are exactly representable in `float`, so
the rational model is exact). -/
theorem C4_counterexample :
    round ((511 : ℚ) / 1024 * 512) = 256 ∧
    (CCS811.write_environmental_data busEnvClaim ⟨0x5A⟩ 25 (511 / 1024)).1 = false ∧
    (CCS811.write_environmental_data busEnvActual ⟨0x5A⟩ 25 (511 / 1024)).1 = true := by
  have hzero : castU16 (0 : ℚ) = 0 := by
    unfold castU16 truncTowardZero
    rw [if_pos (by norm_num)]
    norm_num
  have hhum : castU16 ((511 : ℚ) / 1024 * 512) = 255 := by
    unfold castU16 truncTowardZero
    rw [if_pos (by norm_num)]
    rw [show ((511 : ℚ) / 1024 * 512) = 511 / 2 by norm_num]
    rw [show ⌊(511 : ℚ) / 2⌋ = 255 by norm_num]
    decide
  refine ⟨by norm_num [round_eq], ?_, ?_⟩ <;>
    simp [CCS811.write_environmental_data, CCS811.write_environmental, CCS811.writeReg,
      busEnvClaim, busEnvActual, hzero, hhum, u16raw, swap_endianess, swap_endianess_go,
      swapStep, CCS811.ENV_DATA]

/-- C4 (amended): for encodable inputs (`t ≥ 25 °C`, `h ≥ 0`, both scaled
values below 2^16) `write_environmental_data(t, h)` sends to `ENV_DATA` a
4-byte buffer whose bytes 0-1 are the unsigned 16-bit big-endian TRUNCATION
of `h * 512` and whose bytes 2-3 are the truncation of `(t - 25) * 512`
(truncation toward zero, not rounding; for `t < 25` the intermediate is
negative and the C cast is undefined behaviour, left unspecified). -/
theorem C4_amended (bus : Bus) (s : CCS811State) (t h : ℚ)
    (ht0 : 25 ≤ t) (ht1 : (t - 25) * 512 < 65536)
    (hh0 : 0 ≤ h) (hh1 : h * 512 < 65536) :
    CCS811.write_environmental_data bus s t h =
      (bus.writeOk s._device_address 0x05
        (beBytes16 (⌊h * 512⌋).toNat ++ beBytes16 (⌊(t - 25) * 512⌋).toNat), s) := by
  simp only [CCS811.write_environmental_data, CCS811.write_environmental, CCS811.writeReg]
  rw [castU16_eq_floor _ (mul_nonneg (by linarith) (by norm_num)) ht1,
    castU16_eq_floor _ (mul_nonneg hh0 (by norm_num)) hh1]
  rw [swap_u16raw, swap_u16raw]
  rfl

/-- Witness for C4 at `t = 25.5 °C`, `h = 50 %RH`. -/
theorem C4_witness :
    CCS811.write_environmental_data busNone ⟨0x5A⟩ (51 / 2) 50 =
      (busNone.writeOk 0x5A 0x05
        (beBytes16 (⌊(50 : ℚ) * 512⌋).toNat ++
          beBytes16 (⌊((51 : ℚ) / 2 - 25) * 512⌋).toNat), ⟨0x5A⟩) :=
  C4_amended busNone ⟨0x5A⟩ (51 / 2) 50 (by norm_num) (by norm_num) (by norm_num)
    (by norm_num)

/-! Claim C7. -/

/-- C7: writing a threshold pair sends exactly the big-endian encoding to
register `0x10`, and reading the thresholds register back from a faithful
transport (one that returns the bytes just written) recovers the identical
`(low, high)` pair, for any initial contents of the caller's struct — the
two in-place byte swaps are mutually inverse. -/
theorem C7_threshold_roundtrip (bus : Bus) (s : CCS811State)
    (low high a b c d : Nat) (h1 : low < high) (h2 : high < 65536)
    (hbus : bus.readResp 0 s._device_address CCS811.THRESHOLDS 4 =
      ReadResp.ok (CCS811.thresholds_raw low high)) :
    CCS811.write_co2_thresholds bus s low high =
      (bus.writeOk s._device_address 0x10 (CCS811.thresholds_raw low high), s) ∧
    CCS811.read_co2_thresholds bus s [a, b, c, d] = ((true, low, high), s) := by
  refine ⟨rfl, ?_⟩
  simp only [CCS811.read_co2_thresholds, CCS811.readReg, hbus, CCS811.thresholds_raw,
    u16raw, swap_endianess, swap_endianess_go, swapStep, le16]
  simp
  constructor <;> omega

/-- Transport that plays back the encoded thresholds `(600, 1200)`. -/
def busThr : Bus :=
  ⟨fun _ _ _ => true, fun _ _ _ _ => ReadResp.ok (CCS811.thresholds_raw 600 1200)⟩

/-- Witness for C7 at the concrete pair `(600, 1200)`. -/
theorem C7_witness :
    CCS811.write_co2_thresholds busThr ⟨0x5A⟩ 600 1200 =
      (busThr.writeOk 0x5A 0x10 (CCS811.thresholds_raw 600 1200), ⟨0x5A⟩) ∧
    CCS811.read_co2_thresholds busThr ⟨0x5A⟩ [1, 2, 3, 4] = ((true, 600, 1200), ⟨0x5A⟩) :=
  C7_threshold_roundtrip busThr ⟨0x5A⟩ 600 1200 1 2 3 4 (by decide) (by decide) rfl

/-! Claim C10. -/

/-- Two transports agree on every transaction addressed to device `dev`. -/
def busAgreeAt (bus busB : Bus) (dev : Nat) : Prop :=
  (∀ t reg len, bus.readResp t dev reg len = busB.readResp t dev reg len) ∧
  (∀ reg input, bus.writeOk dev reg input = busB.writeOk dev reg input)

/-- Every public operation other than `begin` returns the driver state (and
hence the stored `_device_address`) unchanged. -/
def statePreserved (bus : Bus) (s : CCS811State) : Prop :=
  (CCS811.comms_check bus s 0).2 = s ∧
  (CCS811.read_status bus s 0).2 = s ∧
  (CCS811.read_measure_config bus s 0).2 = s ∧
  (CCS811.read_co2_thresholds bus s [0, 0, 0, 0]).2 = s ∧
  (CCS811.read_eCO2 bus s [0, 0]).2 = s ∧
  (CCS811.read_eTVOC bus s [0, 0, 0, 0]).2 = s ∧
  (CCS811.read_raw_data bus s [0, 0]).2 = s ∧
  (CCS811.read_air_quality bus s [0, 0, 0, 0]).2 = s ∧
  (CCS811.read_all_data bus s [0, 0, 0, 0, 0, 0, 0, 0]).2 = s ∧
  (CCS811.read_baseline bus s [0, 0]).2 = s ∧
  (CCS811.read_hardware_id bus s 0).2 = s ∧
  (CCS811.read_hardware_version bus s 0).2 = s ∧
  (CCS811.read_firmware_boot_version bus s [0, 0]).2 = s ∧
  (CCS811.read_firmware_app_version bus s [0, 0]).2 = s ∧
  (CCS811.read_error bus s 0).2 = s ∧
  (CCS811.write_measure_config bus s 0x10).2 = s ∧
  (CCS811.write_environmental bus s [0, 0, 0, 0]).2 = s ∧
  (CCS811.write_thresholds bus s 0 100).2 = s ∧
  (CCS811.write_baseline bus s [0, 0]).2 = s ∧
  (CCS811.write_app_data bus s [0, 0, 0, 0, 0, 0, 0, 0, 0]).2 = s ∧
  (CCS811.write_app_verify bus s 0).2 = s ∧
  (CCS811.write_app_start bus s 0).2 = s ∧
  (CCS811.write_app_erase bus s CCS811_APPLICATION_ERASE_SEQUENCE).2 = s ∧
  (CCS811.write_reset bus s CCS811_RESET_SEQUENCE).2 = s ∧
  (CCS811.write_environmental_data bus s 25 50).2 = s ∧
  (CCS811.write_co2_thresholds bus s 1000 2000).2 = s ∧
  (CCS811.get_eCO2 bus s [0, 0]).2 = s ∧
  (CCS811.get_eTVOC bus s [0, 0, 0, 0]).2 = s ∧
  (CCS811.reset bus s).2 = s ∧
  (CCS811.start_application_erase bus s).2 = s ∧
  (CCS811.start_application_verify bus s 0).2 = s ∧
  (CCS811.start_application_mode bus s 0).2 = s

/-- Every public operation other than `begin` behaves identically on two
transports that agree at the stored device address: all its bus
transactions are addressed with `s._device_address`. -/
def opsAgree (bus busB : Bus) (s : CCS811State) : Prop :=
  CCS811.comms_check bus s 0 = CCS811.comms_check busB s 0 ∧
  CCS811.read_status bus s 0 = CCS811.read_status busB s 0 ∧
  CCS811.read_measure_config bus s 0 = CCS811.read_measure_config busB s 0 ∧
  CCS811.read_co2_thresholds bus s [0, 0, 0, 0] =
    CCS811.read_co2_thresholds busB s [0, 0, 0, 0] ∧
  CCS811.read_eCO2 bus s [0, 0] = CCS811.read_eCO2 busB s [0, 0] ∧
  CCS811.read_eTVOC bus s [0, 0, 0, 0] = CCS811.read_eTVOC busB s [0, 0, 0, 0] ∧
  CCS811.read_raw_data bus s [0, 0] = CCS811.read_raw_data busB s [0, 0] ∧
  CCS811.read_air_quality bus s [0, 0, 0, 0] =
    CCS811.read_air_quality busB s [0, 0, 0, 0] ∧
  CCS811.read_all_data bus s [0, 0, 0, 0, 0, 0, 0, 0] =
    CCS811.read_all_data busB s [0, 0, 0, 0, 0, 0, 0, 0] ∧
  CCS811.read_baseline bus s [0, 0] = CCS811.read_baseline busB s [0, 0] ∧
  CCS811.read_hardware_id bus s 0 = CCS811.read_hardware_id busB s 0 ∧
  CCS811.read_hardware_version bus s 0 = CCS811.read_hardware_version busB s 0 ∧
  CCS811.read_firmware_boot_version bus s [0, 0] =
    CCS811.read_firmware_boot_version busB s [0, 0] ∧
  CCS811.read_firmware_app_version bus s [0, 0] =
    CCS811.read_firmware_app_version busB s [0, 0] ∧
  CCS811.read_error bus s 0 = CCS811.read_error busB s 0 ∧
  CCS811.write_measure_config bus s 0x10 = CCS811.write_measure_config busB s 0x10 ∧
  CCS811.write_environmental bus s [0, 0, 0, 0] =
    CCS811.write_environmental busB s [0, 0, 0, 0] ∧
  CCS811.write_thresholds bus s 0 100 = CCS811.write_thresholds busB s 0 100 ∧
  CCS811.write_baseline bus s [0, 0] = CCS811.write_baseline busB s [0, 0] ∧
  CCS811.write_app_data bus s [0, 0, 0, 0, 0, 0, 0, 0, 0] =
    CCS811.write_app_data busB s [0, 0, 0, 0, 0, 0, 0, 0, 0] ∧
  CCS811.write_app_verify bus s 0 = CCS811.write_app_verify busB s 0 ∧
  CCS811.write_app_start bus s 0 = CCS811.write_app_start busB s 0 ∧
  CCS811.write_app_erase bus s CCS811_APPLICATION_ERASE_SEQUENCE =
    CCS811.write_app_erase busB s CCS811_APPLICATION_ERASE_SEQUENCE ∧
  CCS811.write_reset bus s CCS811_RESET_SEQUENCE =
    CCS811.write_reset busB s CCS811_RESET_SEQUENCE ∧
  CCS811.write_environmental_data bus s 25 50 =
    CCS811.write_environmental_data busB s 25 50 ∧
  CCS811.write_co2_thresholds bus s 1000 2000 =
    CCS811.write_co2_thresholds busB s 1000 2000 ∧
  CCS811.get_eCO2 bus s [0, 0] = CCS811.get_eCO2 busB s [0, 0] ∧
  CCS811.get_eTVOC bus s [0, 0, 0, 0] = CCS811.get_eTVOC busB s [0, 0, 0, 0] ∧
  CCS811.reset bus s = CCS811.reset busB s ∧
  CCS811.start_application_erase bus s = CCS811.start_application_erase busB s ∧
  CCS811.start_application_verify bus s 0 = CCS811.start_application_verify busB s 0 ∧
  CCS811.start_application_mode bus s 0 = CCS811.start_application_mode busB s 0

/-- C10: `begin` (and only `begin`) stores the device address; every other
public operation returns the state unchanged; every bus transaction of
those operations is addressed with the stored `_device_address` (two
transports agreeing there are indistinguishable), and `begin`'s own
transactions use the address it just stored. -/
theorem C10_address_frame (bus busB : Bus) (s : CCS811State) (addr : Nat)
    (hA : busAgreeAt bus busB s._device_address)
    (hB : busAgreeAt bus busB addr) :
    (CCS811.begin bus s addr 0).2 = ⟨addr⟩ ∧
    statePreserved bus s ∧
    opsAgree bus busB s ∧
    CCS811.begin bus s addr 0 = CCS811.begin busB s addr 0 := by
  obtain ⟨hr, hw⟩ := hA
  obtain ⟨hrB, hwB⟩ := hB
  have hcl := comms_loop_congr bus busB s._device_address (fun t len => hr t _ len)
  have hclB := comms_loop_congr bus busB addr (fun t len => hrB t _ len)
  refine ⟨rfl, ?_, ?_, ?_⟩
  · unfold statePreserved
    exact ⟨rfl, rfl, rfl, rfl, rfl, rfl, rfl, rfl, rfl, rfl, rfl, rfl, rfl, rfl, rfl, rfl,
      rfl, rfl, rfl, rfl, rfl, rfl, rfl, rfl, rfl, rfl, rfl, rfl, rfl, rfl, rfl, rfl⟩
  · unfold opsAgree
    simp only [CCS811.comms_check, CCS811.read_status, CCS811.read_measure_config,
      CCS811.read_co2_thresholds, CCS811.read_eCO2, CCS811.read_eTVOC, CCS811.read_raw_data,
      CCS811.read_air_quality, CCS811.read_all_data, CCS811.read_baseline,
      CCS811.read_hardware_id, CCS811.read_hardware_version,
      CCS811.read_firmware_boot_version, CCS811.read_firmware_app_version, CCS811.read_error,
      CCS811.write_measure_config, CCS811.write_environmental, CCS811.write_thresholds,
      CCS811.write_baseline, CCS811.write_app_data, CCS811.write_app_verify,
      CCS811.write_app_start, CCS811.write_app_erase, CCS811.write_reset,
      CCS811.write_environmental_data, CCS811.write_co2_thresholds, CCS811.get_eCO2,
      CCS811.get_eTVOC, CCS811.reset, CCS811.start_application_erase,
      CCS811.start_application_verify, CCS811.start_application_mode,
      CCS811.readReg, CCS811.writeReg, hr, hw, hcl, and_self]
  · simp only [CCS811.begin, CCS811.comms_check, CCS811.readReg, CCS811.writeReg, hrB, hclB]

/-- Transport pair for the C10 witness: they agree at device `0x5A` but
differ everywhere else (write acknowledgement and read behaviour). -/
def busW1 : Bus :=
  ⟨fun dev _ _ => dev == 0x5A,
   fun _ dev _ _ => if dev == 0x5A then ReadResp.ok [0x81] else ReadResp.addrFail⟩

/-- Second transport of the C10 witness pair. -/
def busW2 : Bus :=
  ⟨fun _ _ _ => true,
   fun _ dev _ _ => if dev == 0x5A then ReadResp.ok [0x81] else ReadResp.ok []⟩

/-- Witness for C10 with the concrete transport pair at address `0x5A`. -/
theorem C10_witness :
    (CCS811.begin busW1 ⟨0x5A⟩ 0x5A 0).2 = ⟨0x5A⟩ ∧
    statePreserved busW1 ⟨0x5A⟩ ∧
    opsAgree busW1 busW2 ⟨0x5A⟩ ∧
    CCS811.begin busW1 ⟨0x5A⟩ 0x5A 0 = CCS811.begin busW2 ⟨0x5A⟩ 0x5A 0 :=
  C10_address_frame busW1 busW2 ⟨0x5A⟩ 0x5A ⟨fun _ _ _ => rfl, fun _ _ => rfl⟩
    ⟨fun _ _ _ => rfl, fun _ _ => rfl⟩
